import Mathlib

/-!
Shallow embedding of the battle_program settlement engine
(src/programs/battle_program/programs/battle_program/src/lib.rs).

Rust u64 values are modelled as Nat together with the source's checked
arithmetic helpers (overflow is an explicit Option/Except failure where the
source checks, and an explicit wrap modulo 2^64 where the source uses an
unchecked addition).  i64 timestamps are modelled as Int.  Pubkeys are
modelled as Nat, with 0 standing for Pubkey::default().  Each Anchor
instruction body becomes a pure function from its accounts and the clock to
an `Except ErrorCode` result carrying the mutated accounts and the lamport
amounts moved out of escrow.
-/

def U64_MOD : Nat := 2 ^ 64

def U128_MOD : Nat := 2 ^ 128

/-- Platform rake on player prize pool (10%). -/
def PLAYER_RAKE_BPS : Nat := 1000

/-- Platform rake on spectator winnings (5%). -/
def SPECTATOR_RAKE_BPS : Nat := 500

/-- Minimum entry fee for battles (0.1 SOL). -/
def MIN_ENTRY_LAMPORTS : Nat := 100000000

/-- Minimum spectator bet (0.01 SOL). -/
def MIN_SPECTATOR_BET : Nat := 10000000

/-- Battle duration in seconds (30 minutes). -/
def BATTLE_DURATION_SECS : Int := 1800

/-- Lock spectator betting this many seconds before battle ends. -/
def BETTING_LOCK_BEFORE_END : Int := 30

/-- Dispute window duration in seconds (1 hour). -/
def DISPUTE_WINDOW_SECS : Int := 3600

/-- Stake required to file a dispute (0.1 SOL). -/
def DISPUTE_STAKE_LAMPORTS : Nat := 100000000

/-- Time after settlement before unclaimed prizes can be swept (30 days). -/
def CLAIM_TIMEOUT_SECS : Int := 30 * 24 * 60 * 60

/-- Minimum total pool required for normal settlement (0.001 SOL). -/
def MIN_POOL_FOR_SETTLEMENT : Nat := 1000000

/-- Pubkey::default(), the "none" key marking a draw / unset principal. -/
def defaultPubkey : Nat := 0

/-- u64::checked_add: `some (a + b)` unless the sum overflows u64. -/
def checked_add (a b : Nat) : Option Nat :=
  if a + b < U64_MOD then some (a + b) else none

/-- u64::checked_sub: `some (a - b)` unless it would underflow. -/
def checked_sub (a b : Nat) : Option Nat :=
  if b ≤ a then some (a - b) else none

/-- u64::checked_mul: `some (a * b)` unless the product overflows u64. -/
def checked_mul (a b : Nat) : Option Nat :=
  if a * b < U64_MOD then some (a * b) else none

/-- u128::checked_mul on values coming from u64 casts. -/
def checked_mul_u128 (a b : Nat) : Option Nat :=
  if a * b < U128_MOD then some (a * b) else none

/-- Safe fee calculation using checked arithmetic:
`amount.checked_mul(fee_bps).map(|v| v / 10000)`. -/
def calculate_fee (amount fee_bps : Nat) : Option Nat :=
  (checked_mul amount fee_bps).map (fun v => v / 10000)

/-- Safe payout calculation after fee:
`10000.checked_sub(fee_bps)` then `amount.checked_mul(m).map(|v| v / 10000)`. -/
def calculate_amount_after_fee (amount fee_bps : Nat) : Option Nat :=
  match checked_sub 10000 fee_bps with
  | none => none
  | some fee_multiplier => (checked_mul amount fee_multiplier).map (fun v => v / 10000)

/-- Safe proportional payout: fails on `winning_pool == 0`, multiplies in u128,
and fails if the quotient does not convert back to u64. -/
def calculate_proportional_payout (bet_amount total_pool winning_pool : Nat) : Option Nat :=
  if winning_pool = 0 then none
  else
    match checked_mul_u128 bet_amount total_pool with
    | none => none
    | some m =>
      let payout_u128 := m / winning_pool
      if payout_u128 < U64_MOD then some payout_u128 else none

inductive BattleStatus where
  | Waiting
  | Active
  | PendingDispute
  | Disputed
  | Settled
  | Cancelled
deriving DecidableEq, Repr

inductive PlayerSide where
  | Creator
  | Opponent
deriving DecidableEq, Repr

inductive ErrorCode where
  | EntryFeeTooLow
  | BattleNotWaiting
  | CannotJoinOwnBattle
  | BattleNotActive
  | BettingLocked
  | BetTooSmall
  | TooEarlyToLock
  | BattleNotEnded
  | BattleNotSettled
  | NotWinner
  | AlreadyClaimed
  | NotBetOwner
  | BetLost
  | CannotCancel
  | NotCreator
  | PrizeNotYetClaimed
  | NotPendingDispute
  | DisputeWindowClosed
  | DisputeWindowOpen
  | NotDisputed
  | DisputeAlreadyResolved
  | InvalidPayout
  | FeesAlreadyWithdrawn
  | PoolOverflow
  | InvalidZeroAddress
  | InvalidAuthority
  | PrizeAlreadyClaimed
  | ClaimTimeoutNotReached
  | BattleNotCancelled
  | NotADraw
  | NotAPlayer
deriving DecidableEq, Repr

/-- Global configuration account (PDA bump omitted: account-derivation plumbing). -/
structure Config where
  authority : Nat
  treasury : Nat
  pending_authority : Nat
  total_battles : Nat
  total_volume : Nat
  total_fees_collected : Nat
deriving DecidableEq, Repr

/-- A 1v1 battle account (PDA bump omitted). -/
structure Battle where
  id : Nat
  creator : Nat
  opponent : Nat
  entry_fee : Nat
  status : BattleStatus
  winner : Nat
  proposed_winner : Nat
  player_pool : Nat
  spectator_pool_creator : Nat
  spectator_pool_opponent : Nat
  betting_locked : Bool
  prize_claimed : Bool
  fees_withdrawn : Bool
  created_at : Int
  started_at : Int
  ends_at : Int
  dispute_deadline : Int
  settled_at : Int
deriving DecidableEq, Repr

/-- A spectator's bet on a battle (PDA bump omitted). -/
structure SpectatorBet where
  bettor : Nat
  battle_id : Nat
  backed_player : PlayerSide
  amount : Nat
  claimed : Bool
deriving DecidableEq, Repr

/-- A dispute against a battle settlement (PDA bump omitted; the opaque 32-byte
evidence hash is modelled as a Nat). -/
structure Dispute where
  battle_id : Nat
  disputer : Nat
  evidence_hash : Nat
  filed_at : Int
  resolved : Bool
  upheld : Bool
deriving DecidableEq, Repr

/-- Tracks whether a player has claimed their draw refund. -/
structure PlayerDrawRefund where
  battle_id : Nat
  player : Nat
  claimed : Bool
deriving DecidableEq, Repr

/-- Result of settle_battle / lock_betting / join_battle: the mutated battle. -/
abbrev BattleResult := Except ErrorCode Battle

/-- settle_battle: authority submits preliminary settlement; dust pools are
clamped to a draw. -/
def settle_battle (battle : Battle) (now : Int) (winner : PlayerSide) : BattleResult :=
  if battle.status = BattleStatus.Active then
    if battle.ends_at ≤ now then
      let total_pool := ((checked_add battle.player_pool battle.spectator_pool_creator).bind
        (fun v => checked_add v battle.spectator_pool_opponent)).getD 0
      if total_pool < MIN_POOL_FOR_SETTLEMENT then
        Except.ok { battle with
          proposed_winner := defaultPubkey,
          status := BattleStatus.PendingDispute,
          dispute_deadline := now + DISPUTE_WINDOW_SECS }
      else
        Except.ok { battle with
          proposed_winner :=
            match winner with
            | PlayerSide.Creator => battle.creator
            | PlayerSide.Opponent => battle.opponent,
          status := BattleStatus.PendingDispute,
          dispute_deadline := now + DISPUTE_WINDOW_SECS }
    else Except.error ErrorCode.BattleNotEnded
  else Except.error ErrorCode.BattleNotActive

/-- Outcome of finalize_settlement: mutated battle and config. -/
structure FinalizeOut where
  battle : Battle
  config : Config
deriving DecidableEq, Repr

/-- finalize_settlement: permissionless crank past the dispute deadline.
Draws accrue no fees; otherwise fee/volume counters are accumulated with
checked adds whose overflow falls back to the old value (unwrap_or). -/
def finalize_settlement (battle : Battle) (config : Config) (now : Int) :
    Except ErrorCode FinalizeOut :=
  if battle.status = BattleStatus.PendingDispute then
    if battle.dispute_deadline ≤ now then
      let battle := { battle with
        winner := battle.proposed_winner,
        status := BattleStatus.Settled,
        settled_at := now }
      let is_draw := battle.winner = defaultPubkey
      if is_draw then
        Except.ok ⟨battle, config⟩
      else
        let player_fee := (calculate_fee battle.player_pool PLAYER_RAKE_BPS).getD 0
        let total_spectator_pool :=
          (checked_add battle.spectator_pool_creator battle.spectator_pool_opponent).getD 0
        let spectator_fee := (calculate_fee total_spectator_pool SPECTATOR_RAKE_BPS).getD 0
        let config := { config with total_fees_collected :=
          ((checked_add config.total_fees_collected player_fee).bind
            (fun v => checked_add v spectator_fee)).getD config.total_fees_collected }
        let config := { config with total_volume :=
          ((checked_add config.total_volume battle.player_pool).bind
            (fun v => checked_add v total_spectator_pool)).getD config.total_volume }
        Except.ok ⟨battle, config⟩
    else Except.error ErrorCode.DisputeWindowOpen
  else Except.error ErrorCode.NotPendingDispute

/-- Outcome of resolve_dispute: mutated battle, dispute record and config. -/
structure ResolveOut where
  battle : Battle
  dispute : Dispute
  config : Config
deriving DecidableEq, Repr

/-- resolve_dispute: authority resolves a filed dispute.  Upheld forfeits the
stake to treasury (`total_fees_collected += STAKE`, an unchecked u64 addition,
modelled as wrapping modulo 2^64); overturned flips the proposed winner to the
other principal.  Either way the battle settles and rakes are accrued with
checked adds whose overflow falls back to the old counter value. -/
def resolve_dispute (battle : Battle) (dispute : Dispute) (config : Config)
    (now : Int) (upheld : Bool) : Except ErrorCode ResolveOut :=
  if battle.status = BattleStatus.Disputed then
    if dispute.resolved then Except.error ErrorCode.DisputeAlreadyResolved
    else
      let dispute := { dispute with resolved := true, upheld := upheld }
      let config :=
        if upheld then
          { config with total_fees_collected :=
              (config.total_fees_collected + DISPUTE_STAKE_LAMPORTS) % U64_MOD }
        else config
      let battle :=
        if upheld then battle
        else if battle.proposed_winner = battle.creator then
          { battle with proposed_winner := battle.opponent }
        else
          { battle with proposed_winner := battle.creator }
      let battle := { battle with
        winner := battle.proposed_winner,
        status := BattleStatus.Settled,
        settled_at := now }
      let player_fee := (calculate_fee battle.player_pool PLAYER_RAKE_BPS).getD 0
      let total_spectator_pool :=
        (checked_add battle.spectator_pool_creator battle.spectator_pool_opponent).getD 0
      let spectator_fee := (calculate_fee total_spectator_pool SPECTATOR_RAKE_BPS).getD 0
      let config := { config with total_fees_collected :=
        ((checked_add config.total_fees_collected player_fee).bind
          (fun v => checked_add v spectator_fee)).getD config.total_fees_collected }
      let config := { config with total_volume :=
        ((checked_add config.total_volume battle.player_pool).bind
          (fun v => checked_add v total_spectator_pool)).getD config.total_volume }
      Except.ok ⟨battle, dispute, config⟩
  else Except.error ErrorCode.NotDisputed

/-- Outcome of create_battle: mutated config and the new battle account. -/
structure CreateOut where
  config : Config
  battle : Battle
deriving DecidableEq, Repr

/-- create_battle: open a lobby.  `config.total_battles += 1` is an unchecked
u64 addition in the source, modelled as wrapping modulo 2^64. -/
def create_battle (config : Config) (creator : Nat) (entry_fee : Nat) (now : Int) :
    Except ErrorCode CreateOut :=
  if MIN_ENTRY_LAMPORTS ≤ entry_fee then
    let battle : Battle := {
      id := config.total_battles,
      creator := creator,
      opponent := defaultPubkey,
      entry_fee := entry_fee,
      status := BattleStatus.Waiting,
      winner := defaultPubkey,
      proposed_winner := defaultPubkey,
      player_pool := entry_fee,
      spectator_pool_creator := 0,
      spectator_pool_opponent := 0,
      betting_locked := false,
      prize_claimed := false,
      fees_withdrawn := false,
      created_at := now,
      started_at := 0,
      ends_at := 0,
      dispute_deadline := 0,
      settled_at := 0 }
    let config := { config with total_battles := (config.total_battles + 1) % U64_MOD }
    Except.ok ⟨config, battle⟩
  else Except.error ErrorCode.EntryFeeTooLow

/-- join_battle: opponent joins a waiting lobby. -/
def join_battle (battle : Battle) (opponent : Nat) (now : Int) : BattleResult :=
  if battle.status = BattleStatus.Waiting then
    if battle.creator = opponent then Except.error ErrorCode.CannotJoinOwnBattle
    else
      match checked_add battle.player_pool battle.entry_fee with
      | none => Except.error ErrorCode.PoolOverflow
      | some pool =>
        Except.ok { battle with
          opponent := opponent,
          player_pool := pool,
          status := BattleStatus.Active,
          started_at := now,
          ends_at := now + BATTLE_DURATION_SECS }
  else Except.error ErrorCode.BattleNotWaiting

/-- Outcome of an operation that mutates a battle and pays out of escrow. -/
structure BattlePayoutOut where
  battle : Battle
  payout : Nat
deriving DecidableEq, Repr

/-- cancel_battle: creator cancels a waiting lobby; entry fee is refunded. -/
def cancel_battle (battle : Battle) (creator : Nat) : Except ErrorCode BattlePayoutOut :=
  if battle.status = BattleStatus.Waiting then
    if battle.creator = creator then
      Except.ok ⟨{ battle with status := BattleStatus.Cancelled }, battle.entry_fee⟩
    else Except.error ErrorCode.NotCreator
  else Except.error ErrorCode.CannotCancel

/-- claim_player_prize: winner claims the player pool minus the player rake. -/
def claim_player_prize (battle : Battle) (player : Nat) : Except ErrorCode BattlePayoutOut :=
  if battle.status = BattleStatus.Settled then
    if player = battle.winner then
      if battle.prize_claimed then Except.error ErrorCode.AlreadyClaimed
      else
        match calculate_amount_after_fee battle.player_pool PLAYER_RAKE_BPS with
        | none => Except.error ErrorCode.InvalidPayout
        | some payout => Except.ok ⟨{ battle with prize_claimed := true }, payout⟩
    else Except.error ErrorCode.NotWinner
  else Except.error ErrorCode.BattleNotSettled

/-- Outcome of claim_player_draw_refund: the battle account is read-only there,
only the refund receipt is mutated. -/
structure DrawRefundOut where
  refund_record : PlayerDrawRefund
  payout : Nat
deriving DecidableEq, Repr

/-- claim_player_draw_refund: either player reclaims the entry fee of a battle
settled as a draw, guarded by a one-shot receipt. -/
def claim_player_draw_refund (battle : Battle) (refund_record : PlayerDrawRefund)
    (player : Nat) : Except ErrorCode DrawRefundOut :=
  if battle.status = BattleStatus.Settled then
    if battle.winner = defaultPubkey then
      if refund_record.claimed then Except.error ErrorCode.AlreadyClaimed
      else if player = battle.creator ∨ player = battle.opponent then
        Except.ok ⟨{ refund_record with claimed := true }, battle.entry_fee⟩
      else Except.error ErrorCode.NotAPlayer
    else Except.error ErrorCode.NotADraw
  else Except.error ErrorCode.BattleNotSettled

/-- Outcome of file_dispute: mutated battle plus the freshly created dispute. -/
structure FileOut where
  battle : Battle
  dispute : Dispute
deriving DecidableEq, Repr

/-- file_dispute: anyone stakes the dispute bond inside the window. -/
def file_dispute (battle : Battle) (now : Int) (disputer : Nat) (evidence_hash : Nat) :
    Except ErrorCode FileOut :=
  if battle.status = BattleStatus.PendingDispute then
    if now < battle.dispute_deadline then
      Except.ok ⟨{ battle with status := BattleStatus.Disputed },
        { battle_id := battle.id,
          disputer := disputer,
          evidence_hash := evidence_hash,
          filed_at := now,
          resolved := false,
          upheld := false }⟩
    else Except.error ErrorCode.DisputeWindowClosed
  else Except.error ErrorCode.NotPendingDispute

/-- Outcome of place_spectator_bet: mutated battle plus the new bet account. -/
structure PlaceBetOut where
  battle : Battle
  bet : SpectatorBet
deriving DecidableEq, Repr

/-- place_spectator_bet: back one side while betting is open. -/
def place_spectator_bet (battle : Battle) (bettor : Nat) (backed_player : PlayerSide)
    (amount : Nat) (now : Int) : Except ErrorCode PlaceBetOut :=
  if battle.status = BattleStatus.Active then
    if battle.betting_locked then Except.error ErrorCode.BettingLocked
    else if now < battle.ends_at - BETTING_LOCK_BEFORE_END then
      if MIN_SPECTATOR_BET ≤ amount then
        let pools :=
          match backed_player with
          | PlayerSide.Creator =>
            (checked_add battle.spectator_pool_creator amount).map
              (fun v => { battle with spectator_pool_creator := v })
          | PlayerSide.Opponent =>
            (checked_add battle.spectator_pool_opponent amount).map
              (fun v => { battle with spectator_pool_opponent := v })
        match pools with
        | none => Except.error ErrorCode.PoolOverflow
        | some battle =>
          Except.ok ⟨battle,
            { bettor := bettor,
              battle_id := battle.id,
              backed_player := backed_player,
              amount := amount,
              claimed := false }⟩
      else Except.error ErrorCode.BetTooSmall
    else Except.error ErrorCode.BettingLocked
  else Except.error ErrorCode.BattleNotActive

/-- lock_betting: permissionless crank that locks side bets near the end. -/
def lock_betting (battle : Battle) (now : Int) : BattleResult :=
  if battle.status = BattleStatus.Active then
    if battle.ends_at - BETTING_LOCK_BEFORE_END ≤ now then
      Except.ok { battle with betting_locked := true }
    else Except.error ErrorCode.TooEarlyToLock
  else Except.error ErrorCode.BattleNotActive

/-- Whether the bet backed the final winner, as computed by the source's match. -/
def spectator_bet_won (battle : Battle) (bet : SpectatorBet) : Bool :=
  match bet.backed_player with
  | PlayerSide.Creator => battle.winner == battle.creator
  | PlayerSide.Opponent => battle.winner == battle.opponent

/-- The (winning_pool, losing_pool) pair from the bet's perspective. -/
def spectator_pools (battle : Battle) (side : PlayerSide) : Nat × Nat :=
  match side with
  | PlayerSide.Creator => (battle.spectator_pool_creator, battle.spectator_pool_opponent)
  | PlayerSide.Opponent => (battle.spectator_pool_opponent, battle.spectator_pool_creator)

/-- Outcome of a spectator claim/refund: mutated bet plus the payout. -/
structure BetPayoutOut where
  bet : SpectatorBet
  payout : Nat
deriving DecidableEq, Repr

/-- claim_spectator_winnings: winning bettor claims stake back (one-sided
market) or a proportional share of the raked total spectator pool. -/
def claim_spectator_winnings (battle : Battle) (bet : SpectatorBet) (bettor : Nat) :
    Except ErrorCode BetPayoutOut :=
  if battle.status = BattleStatus.Settled then
    if bet.claimed then Except.error ErrorCode.AlreadyClaimed
    else if bet.bettor = bettor then
      if spectator_bet_won battle bet then
        let pools := spectator_pools battle bet.backed_player
        let winning_pool := pools.1
        let losing_pool := pools.2
        if losing_pool = 0 then
          Except.ok ⟨{ bet with claimed := true }, bet.amount⟩
        else
          match checked_add battle.spectator_pool_creator battle.spectator_pool_opponent with
          | none => Except.error ErrorCode.InvalidPayout
          | some total_spectator_pool =>
            match calculate_amount_after_fee total_spectator_pool SPECTATOR_RAKE_BPS with
            | none => Except.error ErrorCode.InvalidPayout
            | some pool_after_fee =>
              match calculate_proportional_payout bet.amount pool_after_fee winning_pool with
              | none => Except.error ErrorCode.InvalidPayout
              | some payout => Except.ok ⟨{ bet with claimed := true }, payout⟩
      else Except.error ErrorCode.BetLost
    else Except.error ErrorCode.NotBetOwner
  else Except.error ErrorCode.BattleNotSettled

/-- refund_spectator_bet: full refund of a bet on a cancelled battle. -/
def refund_spectator_bet (battle : Battle) (bet : SpectatorBet) (bettor : Nat) :
    Except ErrorCode BetPayoutOut :=
  if battle.status = BattleStatus.Cancelled then
    if bet.claimed then Except.error ErrorCode.AlreadyClaimed
    else if bet.bettor = bettor then
      Except.ok ⟨{ bet with claimed := true }, bet.amount⟩
    else Except.error ErrorCode.NotBetOwner
  else Except.error ErrorCode.BattleNotCancelled

/-- refund_spectator_draw_bet: full refund of a bet on a battle settled as draw. -/
def refund_spectator_draw_bet (battle : Battle) (bet : SpectatorBet) (bettor : Nat) :
    Except ErrorCode BetPayoutOut :=
  if battle.status = BattleStatus.Settled then
    if battle.winner = defaultPubkey then
      if bet.claimed then Except.error ErrorCode.AlreadyClaimed
      else if bet.bettor = bettor then
        Except.ok ⟨{ bet with claimed := true }, bet.amount⟩
      else Except.error ErrorCode.NotBetOwner
    else Except.error ErrorCode.NotADraw
  else Except.error ErrorCode.BattleNotSettled

/-- withdraw_fees: authority sends min(computed fee, escrow balance) to the
treasury after the prize was claimed. -/
def withdraw_fees (battle : Battle) (escrow_balance : Nat) : Except ErrorCode BattlePayoutOut :=
  if battle.status = BattleStatus.Settled then
    if battle.prize_claimed then
      if battle.fees_withdrawn then Except.error ErrorCode.FeesAlreadyWithdrawn
      else
        let player_fee := (calculate_fee battle.player_pool PLAYER_RAKE_BPS).getD 0
        let total_spectator_pool :=
          (checked_add battle.spectator_pool_creator battle.spectator_pool_opponent).getD 0
        let spectator_fee := (calculate_fee total_spectator_pool SPECTATOR_RAKE_BPS).getD 0
        let total_fee := (checked_add player_fee spectator_fee).getD 0
        let withdrawable := min total_fee escrow_balance
        Except.ok ⟨{ battle with fees_withdrawn := true }, withdrawable⟩
    else Except.error ErrorCode.PrizeNotYetClaimed
  else Except.error ErrorCode.BattleNotSettled

/-- sweep_unclaimed: after the claim timeout the whole remaining escrow goes to
treasury and both one-shot flags are set. -/
def sweep_unclaimed (battle : Battle) (now : Int) (escrow_balance : Nat) :
    Except ErrorCode BattlePayoutOut :=
  if battle.status = BattleStatus.Settled then
    if battle.prize_claimed then Except.error ErrorCode.PrizeAlreadyClaimed
    else if battle.settled_at + CLAIM_TIMEOUT_SECS ≤ now then
      Except.ok ⟨{ battle with prize_claimed := true, fees_withdrawn := true }, escrow_balance⟩
    else Except.error ErrorCode.ClaimTimeoutNotReached
  else Except.error ErrorCode.BattleNotSettled

/-- The double checked-add accumulation pattern `x.checked_add(p).and_then(|v|
v.checked_add(s)).unwrap_or(x)` either adds both summands or leaves `x` alone. -/
theorem checked_add2_getD (x p s : Nat) :
    ((checked_add x p).bind (fun v => checked_add v s)).getD x =
      if x + p + s < U64_MOD then x + p + s else x := by
  unfold checked_add
  by_cases h1 : x + p < U64_MOD
  · by_cases h2 : x + p + s < U64_MOD <;> simp [h1, h2]
  · have h2 : ¬ x + p + s < U64_MOD := by omega
    simp [h1, h2]

/-- Fixture: a dust-pool active battle (total pool 400000 < 1000000). -/
def exBattleC1 : Battle := {
  id := 0, creator := 1, opponent := 2, entry_fee := 200000,
  status := BattleStatus.Active, winner := 0, proposed_winner := 0,
  player_pool := 400000, spectator_pool_creator := 0, spectator_pool_opponent := 0,
  betting_locked := false, prize_claimed := false, fees_withdrawn := false,
  created_at := 0, started_at := 0, ends_at := 1800, dispute_deadline := 0,
  settled_at := 0 }

/-- Claim C1: for an Active battle past ends_at whose clamped total pool is
below MIN_POOL_FOR_SETTLEMENT, settle_battle proposes the default (none)
winner regardless of the supplied winner argument, and a finalize_settlement
at or after the dispute deadline settles with final winner none. -/
theorem settle_dust_pool_is_draw (b : Battle) (now : Int) (w : PlayerSide)
    (hact : b.status = BattleStatus.Active)
    (hend : b.ends_at ≤ now)
    (hdust : ((checked_add b.player_pool b.spectator_pool_creator).bind
      (fun v => checked_add v b.spectator_pool_opponent)).getD 0 <
        MIN_POOL_FOR_SETTLEMENT) :
    ∃ b', settle_battle b now w = Except.ok b' ∧
      b'.proposed_winner = defaultPubkey ∧
      b'.status = BattleStatus.PendingDispute ∧
      ∀ (c : Config) (now2 : Int), b'.dispute_deadline ≤ now2 →
        ∃ r, finalize_settlement b' c now2 = Except.ok r ∧
          r.battle.winner = defaultPubkey ∧
          r.battle.status = BattleStatus.Settled := by
  refine ⟨{ b with proposed_winner := defaultPubkey, status := BattleStatus.PendingDispute, dispute_deadline := now + DISPUTE_WINDOW_SECS }, ?_, rfl, rfl, ?_⟩
  · unfold settle_battle
    rw [hact]
    simp [hend, hdust]
  · intro c now2 h2
    refine ⟨⟨{ b with proposed_winner := defaultPubkey, dispute_deadline := now + DISPUTE_WINDOW_SECS, winner := defaultPubkey, status := BattleStatus.Settled, settled_at := now2 }, c⟩, ?_, rfl, rfl⟩
    unfold finalize_settlement
    simp only [] at h2
    simp [h2, defaultPubkey]

/-- Witness for C1 at a concrete dust-pool battle. -/
theorem settle_dust_pool_is_draw_witness :
    ∃ b', settle_battle exBattleC1 1800 PlayerSide.Creator = Except.ok b' ∧
      b'.proposed_winner = defaultPubkey ∧
      b'.status = BattleStatus.PendingDispute ∧
      ∀ (c : Config) (now2 : Int), b'.dispute_deadline ≤ now2 →
        ∃ r, finalize_settlement b' c now2 = Except.ok r ∧
          r.battle.winner = defaultPubkey ∧
          r.battle.status = BattleStatus.Settled :=
  settle_dust_pool_is_draw exBattleC1 1800 PlayerSide.Creator rfl (by decide) (by decide)

/-- Claim C2 (amended): for a Disputed battle with an unresolved dispute,
resolve_dispute with upheld = false sets proposed_winner to the opponent when
it was the creator and to the creator otherwise.  A named-winner proposal is
thus swapped between the two principals, but a draw proposal (proposed_winner
= none, with creator distinct from none) IS converted into the named winner
creator. -/
theorem resolve_overturn_flips_to_other (b : Battle) (d : Dispute) (c : Config)
    (now : Int)
    (hst : b.status = BattleStatus.Disputed)
    (hres : d.resolved = false) :
    ∃ r, resolve_dispute b d c now false = Except.ok r ∧
      r.battle.proposed_winner =
        (if b.proposed_winner = b.creator then b.opponent else b.creator) ∧
      r.battle.winner = r.battle.proposed_winner ∧
      r.battle.status = BattleStatus.Settled := by
  unfold resolve_dispute
  rw [hst]
  by_cases hpc : b.proposed_winner = b.creator <;> simp [hres, hpc]

/-- Fixture: a Disputed battle whose proposal is a draw (none). -/
def exBattleC2 : Battle := {
  id := 0, creator := 1, opponent := 2, entry_fee := 200000,
  status := BattleStatus.Disputed, winner := 0, proposed_winner := 0,
  player_pool := 400000, spectator_pool_creator := 0, spectator_pool_opponent := 0,
  betting_locked := false, prize_claimed := false, fees_withdrawn := false,
  created_at := 0, started_at := 0, ends_at := 1800, dispute_deadline := 5400,
  settled_at := 0 }

def exDisputeC2 : Dispute := {
  battle_id := 0, disputer := 7, evidence_hash := 0, filed_at := 2000,
  resolved := false, upheld := false }

def exConfigC2 : Config := {
  authority := 9, treasury := 8, pending_authority := 0,
  total_battles := 1, total_volume := 0, total_fees_collected := 0 }

/-- Counterexample to claim C2 as stated: overturning a dispute over a draw
proposal (proposed_winner = none) turns it into the named winner creator. -/
theorem resolve_overturn_draw_counterexample :
    exBattleC2.proposed_winner = defaultPubkey ∧
    exBattleC2.creator ≠ defaultPubkey ∧
    (resolve_dispute exBattleC2 exDisputeC2 exConfigC2 6000 false).map
      (fun r => (r.battle.proposed_winner, r.battle.winner)) =
      Except.ok (exBattleC2.creator, exBattleC2.creator) :=
  ⟨rfl, by decide, rfl⟩

/-- Witness for C2's amended theorem at a concrete named-winner proposal
(creator proposed, flipped to opponent). -/
theorem resolve_overturn_flips_to_other_witness :
    ∃ r, resolve_dispute { exBattleC2 with proposed_winner := 1 } exDisputeC2
        exConfigC2 6000 false = Except.ok r ∧
      r.battle.proposed_winner =
        (if ({ exBattleC2 with proposed_winner := 1 } : Battle).proposed_winner =
            ({ exBattleC2 with proposed_winner := 1 } : Battle).creator then
          ({ exBattleC2 with proposed_winner := 1 } : Battle).opponent
        else ({ exBattleC2 with proposed_winner := 1 } : Battle).creator) ∧
      r.battle.winner = r.battle.proposed_winner ∧
      r.battle.status = BattleStatus.Settled :=
  resolve_overturn_flips_to_other { exBattleC2 with proposed_winner := 1 }
    exDisputeC2 exConfigC2 6000 rfl rfl

/-- Claim C4 (amended): calculate_fee computes floor(amount * feeBps / 10000)
through a u64 (not widened) checked multiply: it returns the exact floor
exactly when amount * feeBps fits in u64, and fails with None when the product
overflows u64 even if the quotient itself would fit. -/
theorem calculate_fee_u64_checked (amount fee_bps : Nat) :
    (amount * fee_bps < U64_MOD →
      calculate_fee amount fee_bps = some (amount * fee_bps / 10000)) ∧
    (U64_MOD ≤ amount * fee_bps → calculate_fee amount fee_bps = none) := by
  constructor <;> intro h
  · simp [calculate_fee, checked_mul, h]
  · simp [calculate_fee, checked_mul, Nat.not_lt.mpr h]

/-- Counterexample to claim C4 as stated: for amount = 2^63 and feeBps = 1000
the mathematical quotient fits in u64, yet calculate_fee fails with None
because the u64 multiply overflows (no widened intermediate is used). -/
theorem calculate_fee_not_widened_counterexample :
    calculate_fee (2 ^ 63) 1000 = none ∧ 2 ^ 63 * 1000 / 10000 < U64_MOD :=
  ⟨rfl, by decide⟩

/-- Witness for C4's amended theorem at a concrete in-range input. -/
theorem calculate_fee_u64_checked_witness :
    calculate_fee 2000000000 1000 = some 200000000 :=
  ((calculate_fee_u64_checked 2000000000 1000).1 (by decide)).trans (by decide)

/-- Fixture: a PendingDispute battle with a named proposed winner. -/
def exBattleC3 : Battle := {
  id := 0, creator := 1, opponent := 2, entry_fee := 1000000000,
  status := BattleStatus.PendingDispute, winner := 0, proposed_winner := 1,
  player_pool := 2000000000, spectator_pool_creator := 0,
  spectator_pool_opponent := 0, betting_locked := false, prize_claimed := false,
  fees_withdrawn := false, created_at := 0, started_at := 0, ends_at := 1800,
  dispute_deadline := 5400, settled_at := 0 }

/-- Fixture: config whose fee counter sits at u64::MAX. -/
def exConfigC3 : Config := {
  authority := 9, treasury := 8, pending_authority := 0,
  total_battles := 1, total_volume := 0, total_fees_collected := 2 ^ 64 - 1 }

/-- Counterexample to claim C3 as stated: with total_fees_collected at
u64::MAX, finalize_settlement succeeds while the checked addition of a
positive fee overflows and the counter is silently left unchanged — the
operation neither applies old + increment nor fails explicitly. -/
theorem config_counter_overflow_counterexample :
    (finalize_settlement exBattleC3 exConfigC3 6000).map
      (fun r => r.config.total_fees_collected) = Except.ok (2 ^ 64 - 1) ∧
    calculate_fee exBattleC3.player_pool PLAYER_RAKE_BPS = some 200000000 ∧
    (2 ^ 64 - 1 : Nat) ≠ 2 ^ 64 - 1 + 200000000 :=
  ⟨rfl, rfl, by decide⟩

/-- The source's local `player_fee` value: `calculate_fee(player_pool,
PLAYER_RAKE_BPS).unwrap_or(0)`, shared by resolve_dispute, withdraw_fees and
finalize_settlement. -/
def player_fee_of (b : Battle) : Nat :=
  (calculate_fee b.player_pool PLAYER_RAKE_BPS).getD 0

/-- The source's local `total_spectator_pool` value:
`spectator_pool_creator.checked_add(spectator_pool_opponent).unwrap_or(0)`. -/
def total_spectator_pool_of (b : Battle) : Nat :=
  (checked_add b.spectator_pool_creator b.spectator_pool_opponent).getD 0

/-- The source's local `spectator_fee` value:
`calculate_fee(total_spectator_pool, SPECTATOR_RAKE_BPS).unwrap_or(0)`. -/
def spectator_fee_of (b : Battle) : Nat :=
  (calculate_fee (total_spectator_pool_of b) SPECTATOR_RAKE_BPS).getD 0

/-- Claim C3 (amended): no counter mutation fails on overflow.  The fee and
volume accumulations in finalize_settlement and resolve_dispute (both the
upheld and the overturned branch) are checked adds whose overflow is absorbed
by unwrap_or — on overflow the counter keeps its old value while the operation
still succeeds — the dispute-stake accrual in resolve_dispute (upheld) and
total_battles in create_battle are plain unchecked u64 additions, wrapping
modulo 2^64; only when the checked addition fits does the counter equal its
old value plus the increment. -/
theorem config_counter_update_shape :
    (∀ (b : Battle) (c : Config) (now : Int),
      b.status = BattleStatus.PendingDispute →
      b.dispute_deadline ≤ now →
      b.proposed_winner ≠ defaultPubkey →
      ∃ r, finalize_settlement b c now = Except.ok r ∧
        r.config.total_fees_collected =
          (if c.total_fees_collected + player_fee_of b + spectator_fee_of b <
              U64_MOD then
            c.total_fees_collected + player_fee_of b + spectator_fee_of b
          else c.total_fees_collected) ∧
        r.config.total_volume =
          (if c.total_volume + b.player_pool + total_spectator_pool_of b <
              U64_MOD then
            c.total_volume + b.player_pool + total_spectator_pool_of b
          else c.total_volume)) ∧
    (∀ (b : Battle) (d : Dispute) (c : Config) (now : Int),
      b.status = BattleStatus.Disputed →
      d.resolved = false →
      ∃ r, resolve_dispute b d c now true = Except.ok r ∧
        r.config.total_fees_collected =
          (if (c.total_fees_collected + DISPUTE_STAKE_LAMPORTS) % U64_MOD +
                player_fee_of b + spectator_fee_of b < U64_MOD then
            (c.total_fees_collected + DISPUTE_STAKE_LAMPORTS) % U64_MOD +
              player_fee_of b + spectator_fee_of b
          else (c.total_fees_collected + DISPUTE_STAKE_LAMPORTS) % U64_MOD) ∧
        r.config.total_volume =
          (if c.total_volume + b.player_pool + total_spectator_pool_of b <
              U64_MOD then
            c.total_volume + b.player_pool + total_spectator_pool_of b
          else c.total_volume)) ∧
    (∀ (b : Battle) (d : Dispute) (c : Config) (now : Int),
      b.status = BattleStatus.Disputed →
      d.resolved = false →
      ∃ r, resolve_dispute b d c now false = Except.ok r ∧
        r.config.total_fees_collected =
          (if c.total_fees_collected + player_fee_of b + spectator_fee_of b <
              U64_MOD then
            c.total_fees_collected + player_fee_of b + spectator_fee_of b
          else c.total_fees_collected) ∧
        r.config.total_volume =
          (if c.total_volume + b.player_pool + total_spectator_pool_of b <
              U64_MOD then
            c.total_volume + b.player_pool + total_spectator_pool_of b
          else c.total_volume)) ∧
    (∀ (c : Config) (creator entry_fee : Nat) (now : Int),
      MIN_ENTRY_LAMPORTS ≤ entry_fee →
      ∃ r, create_battle c creator entry_fee now = Except.ok r ∧
        r.config.total_battles = (c.total_battles + 1) % U64_MOD) := by
  refine ⟨?_, ?_, ?_, ?_⟩
  · intro b c now hst hdl hw
    unfold finalize_settlement
    rw [hst]
    simp only [if_pos rfl, if_pos hdl]
    simp [hw, checked_add2_getD, player_fee_of, spectator_fee_of,
      total_spectator_pool_of]
  · intro b d c now hst hres
    unfold resolve_dispute
    rw [hst, hres]
    refine ⟨_, rfl, ?_, ?_⟩ <;>
      · dsimp only
        simp only [if_true, ite_true, player_fee_of, spectator_fee_of,
          total_spectator_pool_of, checked_add2_getD]
  · intro b d c now hst hres
    unfold resolve_dispute
    rw [hst, hres]
    rw [if_neg (by decide : ¬(false = true)), if_neg (by decide : ¬(false = true)),
      if_neg (by decide : ¬(false = true))]
    by_cases hpc : b.proposed_winner = b.creator
    · rw [if_pos hpc]
      refine ⟨_, rfl, ?_, ?_⟩ <;>
        · dsimp only
          simp only [player_fee_of, spectator_fee_of, total_spectator_pool_of,
            checked_add2_getD]
    · rw [if_neg hpc]
      refine ⟨_, rfl, ?_, ?_⟩ <;>
        · dsimp only
          simp only [player_fee_of, spectator_fee_of, total_spectator_pool_of,
            checked_add2_getD]
  · intro c creator entry_fee now hfee
    unfold create_battle
    simp [hfee]

/-- Witness for C3's amended theorem at concrete inputs: overflowing fee
counter in finalize_settlement, the dispute-stake and rake accruals in both
resolve_dispute branches at a concrete disputed battle, and the wrapping
battle counter in create_battle. -/
theorem config_counter_update_shape_witness :
    (∃ r, finalize_settlement exBattleC3 exConfigC3 6000 = Except.ok r ∧
      r.config.total_fees_collected =
        (if exConfigC3.total_fees_collected + player_fee_of exBattleC3 +
              spectator_fee_of exBattleC3 < U64_MOD then
          exConfigC3.total_fees_collected + player_fee_of exBattleC3 +
            spectator_fee_of exBattleC3
        else exConfigC3.total_fees_collected) ∧
      r.config.total_volume =
        (if exConfigC3.total_volume + exBattleC3.player_pool +
              total_spectator_pool_of exBattleC3 < U64_MOD then
          exConfigC3.total_volume + exBattleC3.player_pool +
            total_spectator_pool_of exBattleC3
        else exConfigC3.total_volume)) ∧
    (∃ r, resolve_dispute exBattleC2 exDisputeC2 exConfigC2 6000 true = Except.ok r ∧
      r.config.total_fees_collected =
        (if (exConfigC2.total_fees_collected + DISPUTE_STAKE_LAMPORTS) % U64_MOD +
              player_fee_of exBattleC2 + spectator_fee_of exBattleC2 < U64_MOD then
          (exConfigC2.total_fees_collected + DISPUTE_STAKE_LAMPORTS) % U64_MOD +
            player_fee_of exBattleC2 + spectator_fee_of exBattleC2
        else (exConfigC2.total_fees_collected + DISPUTE_STAKE_LAMPORTS) % U64_MOD) ∧
      r.config.total_volume =
        (if exConfigC2.total_volume + exBattleC2.player_pool +
              total_spectator_pool_of exBattleC2 < U64_MOD then
          exConfigC2.total_volume + exBattleC2.player_pool +
            total_spectator_pool_of exBattleC2
        else exConfigC2.total_volume)) ∧
    (∃ r, resolve_dispute exBattleC2 exDisputeC2 exConfigC2 6000 false = Except.ok r ∧
      r.config.total_fees_collected =
        (if exConfigC2.total_fees_collected + player_fee_of exBattleC2 +
              spectator_fee_of exBattleC2 < U64_MOD then
          exConfigC2.total_fees_collected + player_fee_of exBattleC2 +
            spectator_fee_of exBattleC2
        else exConfigC2.total_fees_collected) ∧
      r.config.total_volume =
        (if exConfigC2.total_volume + exBattleC2.player_pool +
              total_spectator_pool_of exBattleC2 < U64_MOD then
          exConfigC2.total_volume + exBattleC2.player_pool +
            total_spectator_pool_of exBattleC2
        else exConfigC2.total_volume)) ∧
    (∃ r, create_battle exConfigC3 1 100000000 0 = Except.ok r ∧
      r.config.total_battles = (exConfigC3.total_battles + 1) % U64_MOD) :=
  ⟨config_counter_update_shape.1 exBattleC3 exConfigC3 6000 rfl (by decide) (by decide),
   config_counter_update_shape.2.1 exBattleC2 exDisputeC2 exConfigC2 6000 rfl rfl,
   config_counter_update_shape.2.2.1 exBattleC2 exDisputeC2 exConfigC2 6000 rfl rfl,
   config_counter_update_shape.2.2.2 exConfigC3 1 100000000 0 (by decide)⟩

/-- Claim C6 (amended): finalize_settlement past the deadline settles the
battle; a draw (proposed_winner = none) leaves the config untouched, while a
named winner accrues calculate_fee(playerPool, 1000) +
calculate_fee(spectatorPool, 500) into total_fees_collected and both pools
into total_volume provided the checked accumulations fit in u64 (on overflow
the counters are silently left unchanged, see the counterexample). -/
theorem finalize_settlement_fee_accrual (b : Battle) (c : Config) (now : Int)
    (hst : b.status = BattleStatus.PendingDispute)
    (hdl : b.dispute_deadline ≤ now) :
    ∃ r, finalize_settlement b c now = Except.ok r ∧
      r.battle.status = BattleStatus.Settled ∧
      r.battle.winner = b.proposed_winner ∧
      (b.proposed_winner = defaultPubkey → r.config = c) ∧
      (∀ pf sp sf : Nat, b.proposed_winner ≠ defaultPubkey →
        calculate_fee b.player_pool PLAYER_RAKE_BPS = some pf →
        checked_add b.spectator_pool_creator b.spectator_pool_opponent = some sp →
        calculate_fee sp SPECTATOR_RAKE_BPS = some sf →
        c.total_fees_collected + pf + sf < U64_MOD →
        c.total_volume + b.player_pool + sp < U64_MOD →
        r.config.total_fees_collected = c.total_fees_collected + pf + sf ∧
        r.config.total_volume = c.total_volume + b.player_pool + sp) := by
  unfold finalize_settlement
  rw [hst]
  simp only [if_pos rfl, if_pos hdl]
  by_cases hd : b.proposed_winner = defaultPubkey
  · simp only [hd, if_pos rfl]
    exact ⟨_, rfl, rfl, rfl, fun _ => rfl, fun pf sp sf hne _ _ _ _ _ => absurd rfl hne⟩
  · simp only [if_neg hd]
    refine ⟨_, rfl, rfl, rfl, fun h => absurd h hd, ?_⟩
    intro pf sp sf _ hpf hsp hsf hfees hvol
    constructor
    · simp only [hpf, hsp, hsf, Option.getD_some, checked_add2_getD]
      rw [if_pos hfees]
    · simp only [hpf, hsp, hsf, Option.getD_some, checked_add2_getD]
      rw [if_pos hvol]

/-- Fixture: a PendingDispute battle with a named proposed winner and both
spectator pools populated. -/
def exBattleC6 : Battle := {
  id := 0, creator := 1, opponent := 2, entry_fee := 1000000000,
  status := BattleStatus.PendingDispute, winner := 0, proposed_winner := 1,
  player_pool := 2000000000, spectator_pool_creator := 30000000,
  spectator_pool_opponent := 10000000, betting_locked := true,
  prize_claimed := false, fees_withdrawn := false, created_at := 0,
  started_at := 0, ends_at := 1800, dispute_deadline := 5400, settled_at := 0 }

def exConfigC6 : Config := {
  authority := 9, treasury := 8, pending_authority := 0,
  total_battles := 1, total_volume := 0, total_fees_collected := 0 }

/-- Witness for C6 at a concrete named-winner battle. -/
theorem finalize_settlement_fee_accrual_witness :
    ∃ r, finalize_settlement exBattleC6 exConfigC6 6000 = Except.ok r ∧
      r.battle.status = BattleStatus.Settled ∧
      r.battle.winner = exBattleC6.proposed_winner ∧
      (exBattleC6.proposed_winner = defaultPubkey → r.config = exConfigC6) ∧
      (∀ pf sp sf : Nat, exBattleC6.proposed_winner ≠ defaultPubkey →
        calculate_fee exBattleC6.player_pool PLAYER_RAKE_BPS = some pf →
        checked_add exBattleC6.spectator_pool_creator
          exBattleC6.spectator_pool_opponent = some sp →
        calculate_fee sp SPECTATOR_RAKE_BPS = some sf →
        exConfigC6.total_fees_collected + pf + sf < U64_MOD →
        exConfigC6.total_volume + exBattleC6.player_pool + sp < U64_MOD →
        r.config.total_fees_collected = exConfigC6.total_fees_collected + pf + sf ∧
        r.config.total_volume = exConfigC6.total_volume + exBattleC6.player_pool + sp) :=
  finalize_settlement_fee_accrual exBattleC6 exConfigC6 6000 rfl (by decide)

/-- Claim C10: resolve_dispute accrues the player and spectator rakes and the
pools into the global counters even when the battle resolves as a draw: an
upheld dispute over a draw proposal (proposed_winner = none) still settles the
battle with winner = none while total_fees_collected grows by the forfeited
dispute stake plus both rakes — a draw settled through the dispute path is not
fee-free. -/
theorem resolve_upheld_draw_accrues_fees (b : Battle) (d : Dispute) (c : Config)
    (now : Int) (pf sp sf : Nat)
    (hst : b.status = BattleStatus.Disputed)
    (hres : d.resolved = false)
    (hdraw : b.proposed_winner = defaultPubkey)
    (hpf : calculate_fee b.player_pool PLAYER_RAKE_BPS = some pf)
    (hsp : checked_add b.spectator_pool_creator b.spectator_pool_opponent = some sp)
    (hsf : calculate_fee sp SPECTATOR_RAKE_BPS = some sf)
    (hstake : c.total_fees_collected + DISPUTE_STAKE_LAMPORTS < U64_MOD)
    (hfees : c.total_fees_collected + DISPUTE_STAKE_LAMPORTS + pf + sf < U64_MOD)
    (hvol : c.total_volume + b.player_pool + sp < U64_MOD) :
    ∃ r, resolve_dispute b d c now true = Except.ok r ∧
      r.battle.winner = defaultPubkey ∧
      r.battle.status = BattleStatus.Settled ∧
      r.config.total_fees_collected =
        c.total_fees_collected + DISPUTE_STAKE_LAMPORTS + pf + sf ∧
      r.config.total_volume = c.total_volume + b.player_pool + sp := by
  unfold resolve_dispute
  rw [hst, hres]
  refine ⟨_, rfl, ?_, ?_, ?_, ?_⟩
  · dsimp only
    exact hdraw
  · dsimp only
  · dsimp only
    simp only [if_true, ite_true, hpf, hsp, hsf, Option.getD_some, checked_add2_getD,
      Nat.mod_eq_of_lt hstake]
    rw [if_pos hfees]
  · dsimp only
    simp only [if_true, ite_true, hpf, hsp, Option.getD_some, checked_add2_getD]
    rw [if_pos hvol]

/-- Witness for C10 at a concrete dust-pool draw dispute. -/
theorem resolve_upheld_draw_accrues_fees_witness :
    ∃ r, resolve_dispute exBattleC2 exDisputeC2 exConfigC2 6000 true = Except.ok r ∧
      r.battle.winner = defaultPubkey ∧
      r.battle.status = BattleStatus.Settled ∧
      r.config.total_fees_collected =
        exConfigC2.total_fees_collected + DISPUTE_STAKE_LAMPORTS + 40000 + 0 ∧
      r.config.total_volume = exConfigC2.total_volume + exBattleC2.player_pool + 0 :=
  resolve_upheld_draw_accrues_fees exBattleC2 exDisputeC2 exConfigC2 6000
    40000 0 0 rfl rfl rfl (by decide) (by decide) (by decide)
    (by decide) (by decide) (by decide)

/-- Claim C7: for a Settled battle whose caller is the final winner with the
prize unclaimed, claim_player_prize pays exactly
floor(playerPool * (10000 - 1000) / 10000) = floor(playerPool * 9000 / 10000),
whenever the widening-free u64 multiply playerPool * 9000 fits (which is what
the source's calculate_amount_after_fee requires to succeed). -/
theorem claim_player_prize_payout (b : Battle) (player : Nat)
    (hst : b.status = BattleStatus.Settled)
    (hw : player = b.winner)
    (hc : b.prize_claimed = false)
    (hmul : b.player_pool * 9000 < U64_MOD) :
    claim_player_prize b player =
      Except.ok ⟨{ b with prize_claimed := true }, b.player_pool * 9000 / 10000⟩ := by
  unfold claim_player_prize
  rw [hst, hw, hc]
  have h1 : checked_sub 10000 PLAYER_RAKE_BPS = some 9000 := by decide
  have hm : calculate_amount_after_fee b.player_pool PLAYER_RAKE_BPS =
      some (b.player_pool * 9000 / 10000) := by
    unfold calculate_amount_after_fee
    rw [h1]
    unfold checked_mul
    dsimp only
    rw [if_pos hmul]
    rfl
  simp [hm]

/-- Fixture: a settled battle with playerPool = 2,000,000,000 and winner 1. -/
def exBattleC7 : Battle := {
  id := 0, creator := 1, opponent := 2, entry_fee := 1000000000,
  status := BattleStatus.Settled, winner := 1, proposed_winner := 1,
  player_pool := 2000000000, spectator_pool_creator := 0,
  spectator_pool_opponent := 0, betting_locked := true, prize_claimed := false,
  fees_withdrawn := false, created_at := 0, started_at := 0, ends_at := 1800,
  dispute_deadline := 5400, settled_at := 6000 }

/-- Witness for C7: the spec's scenario, playerPool 2,000,000,000 pays
1,800,000,000. -/
theorem claim_player_prize_payout_witness :
    claim_player_prize exBattleC7 1 =
      Except.ok ⟨{ exBattleC7 with prize_claimed := true }, 1800000000⟩ :=
  (claim_player_prize_payout exBattleC7 1 rfl rfl rfl (by decide)).trans (by rfl)

/-- Claim C8: for a settled battle, a winning spectator bet whose opposite
(losing) pool is zero is paid back exactly its stake, with no fee and no
proportional share. -/
theorem spectator_one_sided_stake_back (b : Battle) (bet : SpectatorBet)
    (bettor : Nat)
    (hst : b.status = BattleStatus.Settled)
    (hcl : bet.claimed = false)
    (hown : bet.bettor = bettor)
    (hwon : spectator_bet_won b bet = true)
    (hlose : (spectator_pools b bet.backed_player).2 = 0) :
    claim_spectator_winnings b bet bettor =
      Except.ok ⟨{ bet with claimed := true }, bet.amount⟩ := by
  unfold claim_spectator_winnings
  rw [hst, hcl, hown]
  simp [hwon, hlose]

/-- Fixture: a settled battle with a one-sided spectator market (all stake on
the creator side, opponent side empty). -/
def exBattleC8 : Battle := {
  id := 0, creator := 1, opponent := 2, entry_fee := 1000000000,
  status := BattleStatus.Settled, winner := 1, proposed_winner := 1,
  player_pool := 2000000000, spectator_pool_creator := 50000000,
  spectator_pool_opponent := 0, betting_locked := true, prize_claimed := false,
  fees_withdrawn := false, created_at := 0, started_at := 0, ends_at := 1800,
  dispute_deadline := 5400, settled_at := 6000 }

def exBetC8 : SpectatorBet := {
  bettor := 5, battle_id := 0, backed_player := PlayerSide.Creator,
  amount := 10000000, claimed := false }

/-- Witness for C8 at a concrete one-sided market. -/
theorem spectator_one_sided_stake_back_witness :
    claim_spectator_winnings exBattleC8 exBetC8 5 =
      Except.ok ⟨{ exBetC8 with claimed := true }, exBetC8.amount⟩ :=
  spectator_one_sided_stake_back exBattleC8 exBetC8 5 rfl rfl rfl (by decide) (by decide)

/-- Claim C5: once any claim/refund/sweep operation succeeds for a battle and
principal, running the same operation again on the resulting state fails with
an already-claimed / already-withdrawn error (and hence moves no funds and
mutates nothing).  The battle account is read-only in the per-bet and
per-player refund paths, so the second call there reuses the same battle with
the updated one-shot record. -/
theorem claim_operations_idempotent :
    (∀ (b : Battle) (player : Nat) (r : BattlePayoutOut),
      claim_player_prize b player = Except.ok r →
      claim_player_prize r.battle player = Except.error ErrorCode.AlreadyClaimed) ∧
    (∀ (b : Battle) (rcd : PlayerDrawRefund) (player : Nat) (r : DrawRefundOut),
      claim_player_draw_refund b rcd player = Except.ok r →
      claim_player_draw_refund b r.refund_record player =
        Except.error ErrorCode.AlreadyClaimed) ∧
    (∀ (b : Battle) (bet : SpectatorBet) (bettor : Nat) (r : BetPayoutOut),
      claim_spectator_winnings b bet bettor = Except.ok r →
      claim_spectator_winnings b r.bet bettor = Except.error ErrorCode.AlreadyClaimed) ∧
    (∀ (b : Battle) (bet : SpectatorBet) (bettor : Nat) (r : BetPayoutOut),
      refund_spectator_bet b bet bettor = Except.ok r →
      refund_spectator_bet b r.bet bettor = Except.error ErrorCode.AlreadyClaimed) ∧
    (∀ (b : Battle) (bet : SpectatorBet) (bettor : Nat) (r : BetPayoutOut),
      refund_spectator_draw_bet b bet bettor = Except.ok r →
      refund_spectator_draw_bet b r.bet bettor = Except.error ErrorCode.AlreadyClaimed) ∧
    (∀ (b : Battle) (bal : Nat) (r : BattlePayoutOut),
      withdraw_fees b bal = Except.ok r →
      ∀ bal2, withdraw_fees r.battle bal2 = Except.error ErrorCode.FeesAlreadyWithdrawn) ∧
    (∀ (b : Battle) (now : Int) (bal : Nat) (r : BattlePayoutOut),
      sweep_unclaimed b now bal = Except.ok r →
      ∀ now2 bal2, sweep_unclaimed r.battle now2 bal2 =
        Except.error ErrorCode.PrizeAlreadyClaimed) := by
  refine ⟨?_, ?_, ?_, ?_, ?_, ?_, ?_⟩
  · intro b player r h
    unfold claim_player_prize at h ⊢
    repeat' split at h
    all_goals try injection h with h
    all_goals try subst h
    all_goals simp_all
  · intro b rcd player r h
    unfold claim_player_draw_refund at h ⊢
    repeat' split at h
    all_goals try injection h with h
    all_goals try subst h
    all_goals simp_all
  · intro b bet bettor r h
    unfold claim_spectator_winnings at h ⊢
    repeat' split at h
    all_goals try dsimp only at h
    all_goals repeat' split at h
    all_goals try injection h with h
    all_goals try subst h
    all_goals simp_all
  · intro b bet bettor r h
    unfold refund_spectator_bet at h ⊢
    repeat' split at h
    all_goals try injection h with h
    all_goals try subst h
    all_goals simp_all
  · intro b bet bettor r h
    unfold refund_spectator_draw_bet at h ⊢
    repeat' split at h
    all_goals try injection h with h
    all_goals try subst h
    all_goals simp_all
  · intro b bal r h bal2
    unfold withdraw_fees at h ⊢
    repeat' split at h
    all_goals try injection h with h
    all_goals try subst h
    all_goals simp_all
  · intro b now bal r h now2 bal2
    unfold sweep_unclaimed at h ⊢
    repeat' split at h
    all_goals try injection h with h
    all_goals try subst h
    all_goals simp_all

/-- Witness for C5: after the winner's successful claim, a repeat
claim_player_prize fails with AlreadyClaimed. -/
theorem claim_operations_idempotent_witness :
    claim_player_prize { exBattleC7 with prize_claimed := true } 1 =
      Except.error ErrorCode.AlreadyClaimed :=
  claim_operations_idempotent.1 exBattleC7 1
    ⟨{ exBattleC7 with prize_claimed := true }, 1800000000⟩ (by rfl)

/-- Claim C9: Settled and Cancelled are terminal.  Every battle-mutating
operation of the program either fails on such a battle or returns it with the
status unchanged (the remaining operations — the draw/cancellation refunds,
spectator claims and the admin config operations — take the battle read-only
or not at all, so they cannot move it either). -/
theorem settled_cancelled_terminal (b : Battle)
    (hterm : b.status = BattleStatus.Settled ∨ b.status = BattleStatus.Cancelled) :
    (∀ opp now r, join_battle b opp now = Except.ok r → r.status = b.status) ∧
    (∀ cr r, cancel_battle b cr = Except.ok r → r.battle.status = b.status) ∧
    (∀ now w r, settle_battle b now w = Except.ok r → r.status = b.status) ∧
    (∀ now dsp ev r, file_dispute b now dsp ev = Except.ok r →
      r.battle.status = b.status) ∧
    (∀ d c now u r, resolve_dispute b d c now u = Except.ok r →
      r.battle.status = b.status) ∧
    (∀ c now r, finalize_settlement b c now = Except.ok r →
      r.battle.status = b.status) ∧
    (∀ bettor side amt now r, place_spectator_bet b bettor side amt now = Except.ok r →
      r.battle.status = b.status) ∧
    (∀ now r, lock_betting b now = Except.ok r → r.status = b.status) ∧
    (∀ p r, claim_player_prize b p = Except.ok r → r.battle.status = b.status) ∧
    (∀ bal r, withdraw_fees b bal = Except.ok r → r.battle.status = b.status) ∧
    (∀ now bal r, sweep_unclaimed b now bal = Except.ok r →
      r.battle.status = b.status) := by
  refine ⟨?_, ?_, ?_, ?_, ?_, ?_, ?_, ?_, ?_, ?_, ?_⟩
  · intro opp now r h
    unfold join_battle at h
    obtain hs | hs := hterm <;> rw [hs] at h <;> exact absurd h (by simp)
  · intro cr r h
    unfold cancel_battle at h
    obtain hs | hs := hterm <;> rw [hs] at h <;> exact absurd h (by simp)
  · intro now w r h
    unfold settle_battle at h
    obtain hs | hs := hterm <;> rw [hs] at h <;> exact absurd h (by simp)
  · intro now dsp ev r h
    unfold file_dispute at h
    obtain hs | hs := hterm <;> rw [hs] at h <;> exact absurd h (by simp)
  · intro d c now u r h
    unfold resolve_dispute at h
    obtain hs | hs := hterm <;> rw [hs] at h <;> exact absurd h (by simp)
  · intro c now r h
    unfold finalize_settlement at h
    obtain hs | hs := hterm <;> rw [hs] at h <;> exact absurd h (by simp)
  · intro bettor side amt now r h
    unfold place_spectator_bet at h
    obtain hs | hs := hterm <;> rw [hs] at h <;> exact absurd h (by simp)
  · intro now r h
    unfold lock_betting at h
    obtain hs | hs := hterm <;> rw [hs] at h <;> exact absurd h (by simp)
  · intro p r h
    unfold claim_player_prize at h
    repeat' split at h
    all_goals try injection h with h
    all_goals try subst h
    all_goals simp_all
  · intro bal r h
    unfold withdraw_fees at h
    repeat' split at h
    all_goals try injection h with h
    all_goals try subst h
    all_goals simp_all
  · intro now bal r h
    unfold sweep_unclaimed at h
    repeat' split at h
    all_goals try injection h with h
    all_goals try subst h
    all_goals simp_all

/-- Witness for C9 at a concrete settled battle. -/
theorem settled_cancelled_terminal_witness :
    (∀ opp now r, join_battle exBattleC7 opp now = Except.ok r →
      r.status = exBattleC7.status) ∧
    (∀ cr r, cancel_battle exBattleC7 cr = Except.ok r →
      r.battle.status = exBattleC7.status) ∧
    (∀ now w r, settle_battle exBattleC7 now w = Except.ok r →
      r.status = exBattleC7.status) ∧
    (∀ now dsp ev r, file_dispute exBattleC7 now dsp ev = Except.ok r →
      r.battle.status = exBattleC7.status) ∧
    (∀ d c now u r, resolve_dispute exBattleC7 d c now u = Except.ok r →
      r.battle.status = exBattleC7.status) ∧
    (∀ c now r, finalize_settlement exBattleC7 c now = Except.ok r →
      r.battle.status = exBattleC7.status) ∧
    (∀ bettor side amt now r,
      place_spectator_bet exBattleC7 bettor side amt now = Except.ok r →
      r.battle.status = exBattleC7.status) ∧
    (∀ now r, lock_betting exBattleC7 now = Except.ok r →
      r.status = exBattleC7.status) ∧
    (∀ p r, claim_player_prize exBattleC7 p = Except.ok r →
      r.battle.status = exBattleC7.status) ∧
    (∀ bal r, withdraw_fees exBattleC7 bal = Except.ok r →
      r.battle.status = exBattleC7.status) ∧
    (∀ now bal r, sweep_unclaimed exBattleC7 now bal = Except.ok r →
      r.battle.status = exBattleC7.status) :=
  settled_cancelled_terminal exBattleC7 (Or.inl rfl)

/-- Counterexample to claim C6 as stated: a named-winner finalize_settlement
on a config whose fee counter sits at u64::MAX succeeds with a positive player
fee (200,000,000) yet total_fees_collected does not become old + fee — the
overflowing checked add is absorbed and the counter stays at u64::MAX. -/
theorem finalize_fee_not_added_on_overflow_counterexample :
    exBattleC3.proposed_winner ≠ defaultPubkey ∧
    calculate_fee exBattleC3.player_pool PLAYER_RAKE_BPS = some 200000000 ∧
    (finalize_settlement exBattleC3 exConfigC3 6000).map
      (fun r => (r.battle.status, r.config.total_fees_collected)) =
      Except.ok (BattleStatus.Settled, 2 ^ 64 - 1) ∧
    (2 ^ 64 - 1 : Nat) ≠ exConfigC3.total_fees_collected + 200000000 :=
  ⟨by decide, rfl, rfl, by decide⟩
